import Mathlib

/-!
Shallow embedding of the Smart Indoor Air Quality backend
(`src/main.py`, `src/schemas.py`).

Modelling conventions:
* MongoDB collections are Lean lists of document structures, in natural
  (insertion) order; `find_one` returns the first match, `delete_one` and
  `update_one` affect the first match.
* Timestamps (`datetime.now(timezone.utc)`) and ObjectIds are modelled as
  naturals drawn from counters in the store state: each request handler
  reads the current clock as "now" and advances it, which models a
  sequential execution in which every server-side timestamp is fresh and
  strictly increasing.
* Python floats are modelled as rationals (`ℚ`); `int(x)` is truncation
  toward zero (`pyInt`), which agrees with the floor on the nonnegative
  values it is applied to.  The float literal `35.4` is the rational
  `177/5` (written `mkRat 177 5`).
* A BSON field that may be absent, `null`, or a value `v` is modelled as
  `Option (Option α)`: `none` = field absent from the document,
  `some none` = field present with value `null`, `some (some v)` = value.
  This distinction matters because `{"$exists": False}` matches only
  absent fields, not `null` ones, and because
  `model_dump(exclude_none=True)` omits fields instead of storing `null`.
* Python truthiness of an `Optional[str]` (`if device_id:`) is false for
  both `None` and the empty string.
-/

/-- `mode` enum of `schemas.py` (`Literal["auto", "manual"]`). -/
inductive Mode
  | auto
  | manual
deriving DecidableEq, Repr

/-- A document of the `device` collection, as created by
`Device(...).model_dump()` in `schemas.py` (all fields always present). -/
structure DeviceDoc where
  device_id : String
  name : Option String
  location : Option String
  power : Bool
  mode : Mode
  fan_speed : Nat
  last_seen : Option Nat
deriving DecidableEq, Repr

/-- `Device(device_id=did)` with the schema defaults of `schemas.py`:
`name=None`, `location=None`, `power=True`, `mode="auto"`, `fan_speed=1`,
`last_seen=None`. -/
def defaultDeviceDoc (did : String) : DeviceDoc :=
  { device_id := did
    name := none
    location := none
    power := true
    mode := .auto
    fan_speed := 1
    last_seen := none }

/-- A validated `SensorReading` payload (`schemas.py`): `device_id`,
`pm2_5 ≥ 0`, `pm10 ≥ 0` required, the rest optional. -/
structure SensorReading where
  device_id : String
  pm2_5 : ℚ
  pm10 : ℚ
  co2 : Option ℚ
  tvoc : Option ℚ
  temperature : Option ℚ
  humidity : Option ℚ
  aqi : Option ℤ
  timestamp : Option Nat
deriving DecidableEq, Repr

/-- A document of the `sensorreading` collection: the dumped payload after
`ingest_reading` filled in `timestamp` and `aqi`. -/
structure ReadingDoc where
  device_id : String
  pm2_5 : ℚ
  pm10 : ℚ
  co2 : Option ℚ
  tvoc : Option ℚ
  temperature : Option ℚ
  humidity : Option ℚ
  aqi : Option ℤ
  timestamp : Nat
deriving DecidableEq, Repr

/-- A validated `Thresholds` payload (`schemas.py`), fields defaulted. -/
structure Thresholds where
  device_id : Option String
  pm2_5_good : ℚ := 12
  pm2_5_moderate : ℚ := mkRat 177 5
  pm10_good : ℚ := 54
  co2_max : ℚ := 1200
  tvoc_max : ℚ := 500
deriving DecidableEq, Repr

/-- A document of the `thresholds` collection.  `device_id` is
`Option (Option String)` because the stored field can be absent,
`null`, or a string — the `$exists` filter distinguishes these. -/
structure ThDoc where
  device_id : Option (Option String)
  pm2_5_good : ℚ
  pm2_5_moderate : ℚ
  pm10_good : ℚ
  co2_max : ℚ
  tvoc_max : ℚ
deriving DecidableEq, Repr

/-- `th.model_dump()` of a `Thresholds` payload, as a stored document:
every dumped field is written, including `device_id` (as `null` when the
payload has no device_id — `model_dump()` does not exclude `None`). -/
def docOfThresholds (th : Thresholds) : ThDoc :=
  { device_id := some th.device_id
    pm2_5_good := th.pm2_5_good
    pm2_5_moderate := th.pm2_5_moderate
    pm10_good := th.pm10_good
    co2_max := th.co2_max
    tvoc_max := th.tvoc_max }

/-- The scope filter built by `set_thresholds` / `get_thresholds`:
`{"device_id": s}` or `{"device_id": {"$exists": False}}`. -/
inductive ThScope
  | eqId (s : String)
  | notExists
deriving DecidableEq, Repr

/-- `scope = {"device_id": x} if x else {"device_id": {"$exists": False}}` —
Python truthiness: `None` and `""` both select the `$exists: False` filter. -/
def scopeOf (device_id : Option String) : ThScope :=
  match device_id with
  | some s => if s = "" then .notExists else .eqId s
  | none => .notExists

/-- Whether a `thresholds` document matches a scope filter.  An equality
filter matches a present string field of that value; `$exists: False`
matches only documents where the field is absent (a `null` field exists). -/
def thMatch (sc : ThScope) (d : ThDoc) : Bool :=
  match sc with
  | .eqId s => d.device_id == some (some s)
  | .notExists => d.device_id == none

/-- A validated `DeviceCommand` payload (`schemas.py`): `device_id : str`
(any string, including the empty one), optional `power`, `mode`,
`fan_speed ∈ [0,5]`. -/
structure DeviceCommand where
  device_id : String
  power : Option Bool
  mode : Option Mode
  fan_speed : Option Int
deriving DecidableEq, Repr

/-- The wire-level body of `POST /api/commands` before pydantic
validation: each field may be absent. -/
structure CommandIn where
  device_id : Option String
  power : Option Bool
  mode : Option Mode
  fan_speed : Option Int
deriving DecidableEq, Repr

/-- Pydantic validation of a `DeviceCommand` body: `device_id` must be
present (a `str` — the empty string is a `str`), and `fan_speed`, when
present, must satisfy `0 ≤ fan_speed ≤ 5`.  Absent optional fields
default to `None`. -/
def parseDeviceCommand (c : CommandIn) : Except String DeviceCommand :=
  match c.device_id with
  | none => .error "field required: device_id"
  | some did =>
    match c.fan_speed with
    | some v =>
      if 0 ≤ v ∧ v ≤ 5 then
        .ok { device_id := did, power := c.power, mode := c.mode, fan_speed := c.fan_speed }
      else .error "fan_speed out of range"
    | none => .ok { device_id := did, power := c.power, mode := c.mode, fan_speed := c.fan_speed }

/-- A document of the `devicecommand` collection.  The payload fields use
the absent/null/value encoding: `push_command` dumps with
`exclude_none=True`, so unset fields are absent (`none`), never `null`
(`some none`). -/
structure CmdDoc where
  mongoId : Nat
  device_id : String
  power : Option (Option Bool)
  mode : Option (Option Mode)
  fan_speed : Option (Option Int)
  created_at : Nat
deriving DecidableEq, Repr

/-- The whole document store plus the server-side counters that model
`datetime.now` (strictly increasing per request) and ObjectId assignment. -/
structure Store where
  device : List DeviceDoc
  sensorreading : List ReadingDoc
  thresholds : List ThDoc
  devicecommand : List CmdDoc
  nextId : Nat
  clock : Nat
deriving DecidableEq, Repr

/-- The empty store. -/
def Store.init : Store :=
  { device := [], sensorreading := [], thresholds := [], devicecommand := []
    nextId := 0, clock := 0 }

/-! ### Generic store operations -/

/-- `update_one(filter, {"$set": f}, upsert=False)`: apply `f` to the first
matching document, leave everything else unchanged. -/
def updateFirst (p : α → Bool) (f : α → α) : List α → List α
  | [] => []
  | d :: ds => if p d then f d :: ds else d :: updateFirst p f ds

/-- `update_one(filter, {"$set": nd-fields}, upsert=True)` where the `$set`
covers every field of the document: replace the first match with `nd`, or,
when nothing matches, insert `nd` (built from the filter's equality fields
and the `$set` fields). -/
def updateOneUpsert (p : α → Bool) (nd : α) : List α → List α
  | [] => [nd]
  | d :: ds => if p d then nd :: ds else d :: updateOneUpsert p nd ds

/-- `delete_one({"_id": i})`: remove the first document with that id. -/
def deleteOneById (i : Nat) (l : List CmdDoc) : List CmdDoc :=
  l.eraseP (fun c => c.mongoId == i)

/-- `find_one({"device_id": d}, sort=[("created_at", 1)])`: the matching
document with minimal `created_at` (the first such in natural order). -/
def minByCreated : List CmdDoc → Option CmdDoc
  | [] => none
  | c :: cs =>
    match minByCreated cs with
    | none => some c
    | some m => some (if m.created_at < c.created_at then m else c)

def findOneMinCreated (d : String) (l : List CmdDoc) : Option CmdDoc :=
  minByCreated (l.filter (fun c => c.device_id == d))

/-! ### Utility: `compute_aqi` -/

/-- Python's `int()` on a float: truncation toward zero (computable;
on the nonnegative values `compute_aqi` feeds it, this is the floor). -/
def pyInt (q : ℚ) : ℤ := q.num.tdiv q.den

/-- `compute_aqi` of `main.py`: `None` when both inputs are `None`,
otherwise `int(max(min(max((pm25 or 0)*5, 0), 500), min(max((pm10 or 0)*2, 0), 500)))`. -/
def compute_aqi (pm25 pm10 : Option ℚ) : Option ℤ :=
  match pm25, pm10 with
  | none, none => none
  | _, _ =>
    let aqi_pm25 : ℚ := min (max ((pm25.getD 0) * 5) 0) 500
    let aqi_pm10 : ℚ := min (max ((pm10.getD 0) * 2) 0) 500
    some (pyInt (max aqi_pm25 aqi_pm10))

/-- The spec's formula, written from its words: `clamp(x, 0, 500)`. -/
def specClamp (x : ℚ) : ℚ := min (max x 0) 500

/-! ### Request handlers -/

/-- The device-registry part of `ingest_reading`: `find` every document
with this `device_id`; if any exists, `update_one` sets `last_seen := now`
on the first match; otherwise insert `Device(device_id=did).model_dump()`. -/
def heartbeat (did : String) (now : Nat) (l : List DeviceDoc) : List DeviceDoc :=
  if (l.filter (fun d => d.device_id == did)).isEmpty then
    l ++ [defaultDeviceDoc did]
  else
    updateFirst (fun d => d.device_id == did) (fun d => { d with last_seen := some now }) l

/-- The `sensorreading` document built by `ingest_reading`: `timestamp`
defaulted to now when absent, `aqi` derived via `compute_aqi` when absent
(`pm2_5`/`pm10` are always present on a validated payload). -/
def mkReadingDoc (r : SensorReading) (now : Nat) : ReadingDoc :=
  { device_id := r.device_id
    pm2_5 := r.pm2_5
    pm10 := r.pm10
    co2 := r.co2
    tvoc := r.tvoc
    temperature := r.temperature
    humidity := r.humidity
    aqi := match r.aqi with
      | some a => some a
      | none => compute_aqi (some r.pm2_5) (some r.pm10)
    timestamp := r.timestamp.getD now }

/-- `POST /api/readings` (`ingest_reading`): normalize the payload,
run the heartbeat upsert, insert the reading. -/
def ingest_reading (r : SensorReading) (s : Store) : Store :=
  { s with
    device := heartbeat r.device_id s.clock s.device
    sensorreading := s.sensorreading ++ [mkReadingDoc r s.clock]
    nextId := s.nextId + 1
    clock := s.clock + 1 }

/-- The filter built by `get_latest_readings`: `{}` unless `device_id` is
truthy, in which case `{"device_id": device_id}`. -/
def latestQueryFilter (device_id : Option String) (r : ReadingDoc) : Bool :=
  match device_id with
  | some d => if d = "" then true else r.device_id == d
  | none => true

/-- `GET /api/readings/latest` (`get_latest_readings`): filter, sort by
`timestamp` descending, limit. -/
def get_latest_readings (device_id : Option String) (lim : Nat) (s : Store) : List ReadingDoc :=
  (((s.sensorreading.filter (latestQueryFilter device_id)).mergeSort
      (fun a b => decide (b.timestamp ≤ a.timestamp))).take lim)

/-- `POST /api/thresholds` (`set_thresholds`): upsert
`{"$set": th.model_dump()}` at the truthiness-selected scope. -/
def set_thresholds (th : Thresholds) (s : Store) : Store :=
  { s with thresholds :=
      updateOneUpsert (thMatch (scopeOf th.device_id)) (docOfThresholds th) s.thresholds }

/-- Response of `GET /api/thresholds`: either a stored document or
`Thresholds(device_id=device_id).model_dump()` (schema defaults annotated
with the requested device_id). -/
inductive ThResp
  | fromStore (d : ThDoc)
  | defaults (device_id : Option String)
deriving DecidableEq, Repr

/-- `GET /api/thresholds` (`get_thresholds`): `find_one` at the
truthiness-selected scope; defaults when nothing matches. -/
def get_thresholds (device_id : Option String) (s : Store) : ThResp :=
  match s.thresholds.find? (thMatch (scopeOf device_id)) with
  | some d => .fromStore d
  | none => .defaults device_id

/-- The `devicecommand` document stored by `push_command`:
`cmd.model_dump(exclude_none=True)` (set fields stored as values, unset
fields omitted — never `null`) plus server-assigned `created_at`. -/
def mkCmdDoc (cmd : DeviceCommand) (i now : Nat) : CmdDoc :=
  { mongoId := i
    device_id := cmd.device_id
    power := cmd.power.map some
    mode := cmd.mode.map some
    fan_speed := cmd.fan_speed.map some
    created_at := now }

/-- `POST /api/commands` (`push_command`). -/
def push_command (cmd : DeviceCommand) (s : Store) : Store :=
  { s with
    devicecommand := s.devicecommand ++ [mkCmdDoc cmd s.nextId s.clock]
    nextId := s.nextId + 1
    clock := s.clock + 1 }

/-- `GET /api/commands/next` (`next_command`): `find_one` the oldest
pending command; `{"command": None}` if absent (`none` here), else
`delete_one` by its `_id` and return it. -/
def next_command (d : String) (s : Store) : Option CmdDoc × Store :=
  match findOneMinCreated d s.devicecommand with
  | none => (none, s)
  | some doc => (some doc, { s with devicecommand := deleteOneById doc.mongoId s.devicecommand })

/-- `n` sequential polls of `GET /api/commands/next` for device `d`,
collecting the non-empty responses in order. -/
def dequeueList (d : String) : Nat → Store → List CmdDoc × Store
  | 0, s => ([], s)
  | n + 1, s =>
    match next_command d s with
    | (none, s') => ([], s')
    | (some c, s') =>
      let r := dequeueList d n s'
      (c :: r.1, r.2)

/-- Two concurrent `next_command` handlers for the same device,
interleaved at the store-call boundary: the code issues `find_one` and
`delete_one` as two separate store operations with no transaction, so the
schedule (A finds, B finds, A deletes, B deletes) is possible under the
request-per-call concurrency model. -/
def racedDequeue (d : String) (s : Store) : Option CmdDoc × Option CmdDoc × Store :=
  let ra := findOneMinCreated d s.devicecommand
  let rb := findOneMinCreated d s.devicecommand
  let s1 := match ra with
    | none => s
    | some doc => { s with devicecommand := deleteOneById doc.mongoId s.devicecommand }
  let s2 := match rb with
    | none => s1
    | some doc => { s1 with devicecommand := deleteOneById doc.mongoId s1.devicecommand }
  (ra, rb, s2)

/-- Commands pending for device `d`, in natural (insertion) order. -/
def pending (d : String) (s : Store) : List CmdDoc :=
  s.devicecommand.filter (fun c => c.device_id == d)

/-- Well-formedness of the command collection, established by the store
counters on every reachable state: `_id`s are distinct, `created_at`s
strictly increase in insertion order, and both stay below the counters. -/
def WF (s : Store) : Prop :=
  s.devicecommand.Pairwise (fun a b => a.created_at < b.created_at) ∧
  (s.devicecommand.map (·.mongoId)).Nodup ∧
  (∀ c ∈ s.devicecommand, c.created_at < s.clock) ∧
  (∀ c ∈ s.devicecommand, c.mongoId < s.nextId)

instance (s : Store) : Decidable (WF s) := by
  unfold WF; infer_instance

/-! ### Concrete example inputs used by counterexamples and witnesses -/

/-- The spec's concrete scenario command `{device_id:"d1", fan_speed:3}`. -/
def cmdFan3 : DeviceCommand :=
  { device_id := "d1", power := none, mode := none, fan_speed := some 3 }

/-- The spec's concrete scenario command `{device_id:"d1", power:false}`. -/
def cmdPowerOff : DeviceCommand :=
  { device_id := "d1", power := some false, mode := none, fan_speed := none }

/-- A global-scope thresholds write with a recognizable field value. -/
def th99 : Thresholds := { device_id := none, pm2_5_good := 99 }

/-- A plain global-scope thresholds write (all schema defaults). -/
def thGlobal : Thresholds := { device_id := none }

/-- A minimal valid reading with `aqi` and `timestamp` absent. -/
def readingEx : SensorReading :=
  { device_id := "d1", pm2_5 := 10, pm10 := 5, co2 := none, tvoc := none
    temperature := none, humidity := none, aqi := none, timestamp := none }

/-- An empty store whose clock has advanced to 5. -/
def storeAt5 : Store := { Store.init with clock := 5 }

/-! ### Queue lemmas -/

theorem minByCreated_mem {l : List CmdDoc} {c : CmdDoc} (h : minByCreated l = some c) :
    c ∈ l := by
  induction l with
  | nil => simp [minByCreated] at h
  | cons a as ih =>
    rw [minByCreated] at h
    cases hm : minByCreated as with
    | none => rw [hm] at h; simp only [Option.some_inj] at h; simp [h]
    | some m =>
      rw [hm] at h
      simp only [Option.some_inj] at h
      by_cases hlt : m.created_at < a.created_at
      · rw [if_pos hlt] at h; subst h; exact List.mem_cons_of_mem _ (ih hm)
      · rw [if_neg hlt] at h; subst h; exact List.mem_cons_self a as

theorem minByCreated_of_sorted {l : List CmdDoc}
    (h : l.Pairwise (fun a b => a.created_at < b.created_at)) :
    minByCreated l = l.head? := by
  induction l with
  | nil => rfl
  | cons a as ih =>
    rw [List.pairwise_cons] at h
    rw [minByCreated]
    cases hm : minByCreated as with
    | none => rfl
    | some m =>
      have hlt : a.created_at < m.created_at := h.1 m (minByCreated_mem hm)
      show some (if m.created_at < a.created_at then m else a) = (a :: as).head?
      rw [if_neg (by omega)]
      rfl

theorem pending_sorted {s : Store} (h : WF s) (d : String) :
    (pending d s).Pairwise (fun a b => a.created_at < b.created_at) :=
  List.Pairwise.sublist (List.filter_sublist _) h.1

theorem findOneMinCreated_eq_head {s : Store} (h : WF s) (d : String) :
    findOneMinCreated d s.devicecommand = (pending d s).head? :=
  minByCreated_of_sorted (pending_sorted h d)

theorem filter_eraseP_of_head {l rest : List CmdDoc} {c : CmdDoc}
    (P : CmdDoc → Bool)
    (hnd : (l.map (·.mongoId)).Nodup)
    (hf : l.filter P = c :: rest) :
    (l.eraseP (fun x => x.mongoId == c.mongoId)).filter P = rest := by
  induction l with
  | nil => simp at hf
  | cons a as ih =>
    rw [List.filter_cons] at hf
    rw [List.map_cons, List.nodup_cons] at hnd
    by_cases hPa : P a = true
    · rw [if_pos hPa] at hf
      rw [List.cons.injEq] at hf
      obtain ⟨h1, h2⟩ := hf
      subst h1
      rw [List.eraseP_cons]
      have : (a.mongoId == a.mongoId) = true := beq_self_eq_true _
      rw [this]
      simpa using h2
    · rw [if_neg hPa] at hf
      have hc_mem : c ∈ as :=
        List.mem_of_mem_filter (by rw [hf]; exact List.mem_cons_self _ _)
      have hne : (a.mongoId == c.mongoId) = false := by
        have hne' : a.mongoId ≠ c.mongoId := fun he =>
          hnd.1 (by rw [he]; exact List.mem_map_of_mem _ hc_mem)
        simpa using hne'
      rw [List.eraseP_cons, hne]
      simp only [cond_false]
      rw [List.filter_cons, if_neg hPa]
      exact ih hnd.2 hf

theorem next_command_empty {s : Store} {d : String} (h : pending d s = []) :
    next_command d s = (none, s) := by
  unfold next_command
  have hfe : findOneMinCreated d s.devicecommand = none := by
    unfold findOneMinCreated
    have hh : s.devicecommand.filter (fun c => c.device_id == d) = [] := h
    rw [hh]; rfl
  rw [hfe]

theorem next_command_cons {s : Store} {d : String} {c : CmdDoc} {rest : List CmdDoc}
    (hWF : WF s) (h : pending d s = c :: rest) :
    next_command d s =
      (some c, { s with devicecommand := deleteOneById c.mongoId s.devicecommand }) ∧
    pending d { s with devicecommand := deleteOneById c.mongoId s.devicecommand } = rest := by
  have hfind : findOneMinCreated d s.devicecommand = some c := by
    rw [findOneMinCreated_eq_head hWF, h]; rfl
  constructor
  · unfold next_command; rw [hfind]
  · show (deleteOneById c.mongoId s.devicecommand).filter (fun x => x.device_id == d) = rest
    exact filter_eraseP_of_head _ hWF.2.1 h

theorem WF_erase {s : Store} (hWF : WF s) (i : Nat) :
    WF { s with devicecommand := deleteOneById i s.devicecommand } := by
  obtain ⟨h1, h2, h3, h4⟩ := hWF
  have hsub : (deleteOneById i s.devicecommand).Sublist s.devicecommand :=
    List.eraseP_sublist _
  exact ⟨h1.sublist hsub, h2.sublist (hsub.map _),
    fun c hc => h3 c (hsub.subset hc), fun c hc => h4 c (hsub.subset hc)⟩

theorem WF_push {s : Store} (hWF : WF s) (cmd : DeviceCommand) :
    WF (push_command cmd s) := by
  obtain ⟨h1, h2, h3, h4⟩ := hWF
  refine ⟨?_, ?_, ?_, ?_⟩
  · apply List.pairwise_append.mpr
    refine ⟨h1, List.pairwise_singleton _ _, fun a ha b hb => ?_⟩
    rw [List.mem_singleton] at hb
    subst hb
    exact h3 a ha
  · show (List.map (fun x => x.mongoId)
      (s.devicecommand ++ [mkCmdDoc cmd s.nextId s.clock])).Nodup
    rw [List.map_append]
    apply List.Nodup.append h2 (by simp)
    intro x hx hy
    rw [List.map_singleton, List.mem_singleton] at hy
    obtain ⟨c, hc, hcx⟩ := List.mem_map.mp hx
    subst hy
    exact absurd (hcx ▸ h4 c hc) (by simp [mkCmdDoc])
  · intro c hc
    have hc' : c ∈ s.devicecommand ++ [mkCmdDoc cmd s.nextId s.clock] := hc
    show c.created_at < s.clock + 1
    rw [List.mem_append] at hc'
    rcases hc' with hc' | hc'
    · exact Nat.lt_succ_of_lt (h3 c hc')
    · rw [List.mem_singleton] at hc'
      subst hc'
      exact Nat.lt_succ_self _
  · intro c hc
    have hc' : c ∈ s.devicecommand ++ [mkCmdDoc cmd s.nextId s.clock] := hc
    show c.mongoId < s.nextId + 1
    rw [List.mem_append] at hc'
    rcases hc' with hc' | hc'
    · exact Nat.lt_succ_of_lt (h4 c hc')
    · rw [List.mem_singleton] at hc'
      subst hc'
      exact Nat.lt_succ_self _

theorem dequeueList_spec (d : String) (n : Nat) :
    ∀ (s : Store), WF s →
      (dequeueList d n s).1 = (pending d s).take n ∧
      pending d (dequeueList d n s).2 = (pending d s).drop n ∧
      WF (dequeueList d n s).2 := by
  induction n with
  | zero => exact fun s hWF => ⟨rfl, rfl, hWF⟩
  | succ n ih =>
    intro s hWF
    cases hp : pending d s with
    | nil =>
      have hnext := next_command_empty hp
      simp only [dequeueList, hnext, hp]
      exact ⟨rfl, rfl, hWF⟩
    | cons c rest =>
      obtain ⟨hnext, hp'⟩ := next_command_cons hWF hp
      have hWF' := WF_erase hWF c.mongoId
      obtain ⟨ih1, ih2, ih3⟩ := ih _ hWF'
      simp only [dequeueList, hnext, hp]
      refine ⟨?_, ?_, ih3⟩
      · rw [ih1, hp', List.take_succ_cons]
      · rw [ih2, hp', List.drop_succ_cons]

/-- A store holding the spec's concrete scenario: `{device_id:"d1",
fan_speed:3}` enqueued, then `{device_id:"d1", power:false}`. -/
def storeTwoCmds : Store := push_command cmdPowerOff (push_command cmdFan3 Store.init)

/-- C1: on any well-formed store, sequential dequeues for a device return
exactly the pending commands of that device in enqueue order (`take n` of
the pending list), each removed from the store once dequeued (`drop n`
remains), with no command returned twice (`Nodup`); an empty queue yields
the explicit `{command: null}` result (`none`) and leaves the store
untouched; and an enqueue for that device appends to the end of its
pending list. -/
theorem C1_fifo_at_most_once (s : Store) (hWF : WF s) (d : String) (n : Nat)
    (cmd : DeviceCommand) :
    (dequeueList d n s).1 = (pending d s).take n
    ∧ pending d (dequeueList d n s).2 = (pending d s).drop n
    ∧ ((dequeueList d n s).1).Nodup
    ∧ (pending d s = [] → next_command d s = (none, s))
    ∧ (cmd.device_id = d →
        pending d (push_command cmd s) = pending d s ++ [mkCmdDoc cmd s.nextId s.clock]) := by
  obtain ⟨h1, h2, _⟩ := dequeueList_spec d n s hWF
  refine ⟨h1, h2, ?_, fun hp => next_command_empty hp, fun hdev => ?_⟩
  · rw [h1]
    have hnd : (pending d s).Nodup :=
      (pending_sorted hWF d).imp fun hab he => by rw [he] at hab; omega
    exact hnd.sublist (List.take_sublist _ _)
  · show (s.devicecommand ++ [mkCmdDoc cmd s.nextId s.clock]).filter
      (fun c => c.device_id == d) = pending d s ++ [mkCmdDoc cmd s.nextId s.clock]
    rw [List.filter_append]
    simp [pending, mkCmdDoc, hdev]

theorem C1_fifo_at_most_once_witness :
    WF storeTwoCmds ∧
    ((dequeueList "d1" 3 storeTwoCmds).1 = (pending "d1" storeTwoCmds).take 3
      ∧ pending "d1" (dequeueList "d1" 3 storeTwoCmds).2 = (pending "d1" storeTwoCmds).drop 3
      ∧ ((dequeueList "d1" 3 storeTwoCmds).1).Nodup
      ∧ (pending "d1" storeTwoCmds = [] → next_command "d1" storeTwoCmds = (none, storeTwoCmds))
      ∧ (cmdFan3.device_id = "d1" →
          pending "d1" (push_command cmdFan3 storeTwoCmds) =
            pending "d1" storeTwoCmds ++ [mkCmdDoc cmdFan3 storeTwoCmds.nextId storeTwoCmds.clock])) :=
  ⟨by decide, C1_fifo_at_most_once storeTwoCmds (by decide) "d1" 3 cmdFan3⟩

/-- C2: the find-then-delete sequence of `next_command` is two separate
store operations, so two racing polls for the same device can interleave
as find/find/delete/delete; on a queue holding one command both callers
then receive that same command — double delivery, contradicting the
claimed exactly-one-caller guarantee. -/
theorem C2_race_double_delivery :
    (racedDequeue "d1" (push_command cmdFan3 Store.init)).1 = some (mkCmdDoc cmdFan3 0 0) ∧
    (racedDequeue "d1" (push_command cmdFan3 Store.init)).2.1 = some (mkCmdDoc cmdFan3 0 0) ∧
    (racedDequeue "d1" (push_command cmdFan3 Store.init)).2.2.devicecommand = [] := by
  decide

/-- C10: a dequeue that returns a command removes exactly that document
from `devicecommand` (the rest of the collection, in order, and every
other collection are untouched), and a dequeue that returns empty leaves
the whole store unchanged. -/
theorem C10_dequeue_frame (s : Store) (d : String) (hWF : WF s) :
    ((next_command d s).1 = none → (next_command d s).2 = s) ∧
    (∀ c, (next_command d s).1 = some c →
      ∃ l1 l2, s.devicecommand = l1 ++ c :: l2 ∧
        ((next_command d s).2).devicecommand = l1 ++ l2 ∧
        ((next_command d s).2).device = s.device ∧
        ((next_command d s).2).sensorreading = s.sensorreading ∧
        ((next_command d s).2).thresholds = s.thresholds) := by
  cases hf : findOneMinCreated d s.devicecommand with
  | none =>
    have hn : next_command d s = (none, s) := by unfold next_command; rw [hf]
    refine ⟨fun _ => by rw [hn], fun c hc => ?_⟩
    rw [hn] at hc
    exact absurd hc (by simp)
  | some c0 =>
    have hn : next_command d s =
        (some c0, { s with devicecommand := deleteOneById c0.mongoId s.devicecommand }) := by
      unfold next_command; rw [hf]
    refine ⟨fun hnone => ?_, fun c hc => ?_⟩
    · rw [hn] at hnone
      exact absurd hnone (by simp)
    · rw [hn] at hc
      simp only [Option.some_inj] at hc
      subst hc
      have hc0mem : c0 ∈ s.devicecommand :=
        List.mem_of_mem_filter (minByCreated_mem hf)
      obtain ⟨a, l1, l2, _, hpa, hsplit, herase⟩ :=
        List.exists_of_eraseP (p := fun x => x.mongoId == c0.mongoId) hc0mem (by simp)
      have ha : a = c0 := by
        have hamem : a ∈ s.devicecommand := by rw [hsplit]; simp
        exact List.inj_on_of_nodup_map hWF.2.1 hamem hc0mem (by simpa using hpa)
      subst ha
      exact ⟨l1, l2, hsplit, by rw [hn]; exact herase, by rw [hn], by rw [hn], by rw [hn]⟩

theorem C10_dequeue_frame_witness :
    WF storeTwoCmds ∧
    (((next_command "d1" storeTwoCmds).1 = none → (next_command "d1" storeTwoCmds).2 = storeTwoCmds) ∧
     (∀ c, (next_command "d1" storeTwoCmds).1 = some c →
       ∃ l1 l2, storeTwoCmds.devicecommand = l1 ++ c :: l2 ∧
         ((next_command "d1" storeTwoCmds).2).devicecommand = l1 ++ l2 ∧
         ((next_command "d1" storeTwoCmds).2).device = storeTwoCmds.device ∧
         ((next_command "d1" storeTwoCmds).2).sensorreading = storeTwoCmds.sensorreading ∧
         ((next_command "d1" storeTwoCmds).2).thresholds = storeTwoCmds.thresholds)) :=
  ⟨by decide, C10_dequeue_frame storeTwoCmds "d1" (by decide)⟩

/-! ### Device registry lemmas -/

theorem heartbeat_create {l : List DeviceDoc} {did : String} (now : Nat)
    (h : ∀ d ∈ l, d.device_id ≠ did) :
    heartbeat did now l = l ++ [defaultDeviceDoc did] := by
  have hfe : l.filter (fun d => d.device_id == did) = [] :=
    List.filter_eq_nil_iff.mpr fun d hd => by simpa using h d hd
  rw [heartbeat, hfe]
  rfl

theorem updateFirst_append (P : α → Bool) (f : α → α) (l1 l2 : List α) (dev : α)
    (h1 : ∀ d ∈ l1, P d = false) (h2 : P dev = true) :
    updateFirst P f (l1 ++ dev :: l2) = l1 ++ f dev :: l2 := by
  induction l1 with
  | nil =>
    rw [List.nil_append, updateFirst, if_pos h2, List.nil_append]
  | cons a as ih =>
    have ha : P a = false := h1 a (List.mem_cons_self _ _)
    rw [List.cons_append, updateFirst, if_neg (by simp [ha]), List.cons_append,
      ih fun d hd => h1 d (List.mem_cons_of_mem _ hd)]

/-- C3 (amended): `ingest_reading`'s registry step is `heartbeat`; when no
record with the reading's `device_id` exists a new record is created with
the schema defaults `power=true`, `mode=auto`, `fan_speed=1` — and
`last_seen=None`, not the current time; when a record exists, the first
matching record gets exactly `last_seen := now` and every other field and
every other record is left unchanged. -/
theorem C3_heartbeat_upsert (r : SensorReading) (s : Store) (l1 l2 : List DeviceDoc)
    (dev : DeviceDoc) :
    (ingest_reading r s).device = heartbeat r.device_id s.clock s.device
    ∧ ((∀ d ∈ s.device, d.device_id ≠ r.device_id) →
        heartbeat r.device_id s.clock s.device = s.device ++ [defaultDeviceDoc r.device_id])
    ∧ ((defaultDeviceDoc r.device_id).power = true
        ∧ (defaultDeviceDoc r.device_id).mode = Mode.auto
        ∧ (defaultDeviceDoc r.device_id).fan_speed = 1
        ∧ (defaultDeviceDoc r.device_id).last_seen = none)
    ∧ (s.device = l1 ++ dev :: l2 → dev.device_id = r.device_id →
        (∀ d ∈ l1, d.device_id ≠ r.device_id) →
        heartbeat r.device_id s.clock s.device =
          l1 ++ { dev with last_seen := some s.clock } :: l2) := by
  refine ⟨rfl, fun h => heartbeat_create _ h, ⟨rfl, rfl, rfl, rfl⟩,
    fun hsplit hdev h1 => ?_⟩
  rw [hsplit, heartbeat, if_neg ?_]
  · exact updateFirst_append _ _ _ _ _ (fun d hd => by simpa using h1 d hd) (by simp [hdev])
  · intro hemp
    rw [List.isEmpty_iff, List.filter_eq_nil_iff] at hemp
    exact hemp dev (by simp) (by simp [hdev])

/-- A pre-existing device record with non-default fields. -/
def devA : DeviceDoc :=
  { device_id := "d1", name := some "living room", location := some "home"
    power := false, mode := .manual, fan_speed := 4, last_seen := some 2 }

/-- A store already holding `devA`, with the clock at 7. -/
def storeWithDevA : Store := { Store.init with device := [devA], clock := 7 }

theorem C3_heartbeat_upsert_witness :
    (∀ d ∈ Store.init.device, d.device_id ≠ readingEx.device_id) ∧
    (heartbeat readingEx.device_id Store.init.clock Store.init.device =
      Store.init.device ++ [defaultDeviceDoc readingEx.device_id]) ∧
    (heartbeat readingEx.device_id storeWithDevA.clock storeWithDevA.device =
      [] ++ { devA with last_seen := some storeWithDevA.clock } :: []) :=
  ⟨by simp [Store.init],
   (C3_heartbeat_upsert readingEx Store.init [] [] devA).2.1 (by simp [Store.init]),
   (C3_heartbeat_upsert readingEx storeWithDevA [] [] devA).2.2.2 rfl rfl (by simp)⟩

/-- C3 counterexample: ingesting a reading from an unseen device at clock
5 creates the device record with `last_seen = None`, not the current time
— the claim's "last_seen set to the current time" on the create path is
false. -/
theorem C3_create_last_seen_none :
    (ingest_reading readingEx storeAt5).device = [defaultDeviceDoc "d1"] ∧
    (defaultDeviceDoc "d1").last_seen = none ∧
    (none : Option Nat) ≠ some storeAt5.clock := by decide

/-- C4: writing the global thresholds scope twice creates **two** records.
The upsert's `$set` writes `device_id: null` into the stored document,
which the `{"device_id": {"$exists": False}}` filter never matches again,
so the second write inserts instead of replacing — the claimed at-most-one-
record-per-scope invariant fails for the global scope. -/
theorem C4_global_upsert_duplicates :
    (set_thresholds thGlobal (set_thresholds thGlobal Store.init)).thresholds.length = 2 ∧
    ((set_thresholds thGlobal (set_thresholds thGlobal Store.init)).thresholds.map
      (fun d => d.device_id)) = [some none, some none] := by
  decide

/-- C5: the global round trip fails.  After a global `set_thresholds`
stores a record (with `device_id: null`), `get_thresholds` for the global
scope still returns schema defaults, because its `$exists: False` filter
does not match the stored record — the read never sees the global write.
(The per-device/global records are indeed separate documents.) -/
theorem C5_global_roundtrip_broken :
    get_thresholds none (set_thresholds th99 Store.init) = ThResp.defaults none ∧
    (set_thresholds th99 Store.init).thresholds.map (fun d => d.device_id) = [some none] ∧
    th99.pm2_5_good = 99 ∧
    get_thresholds none (set_thresholds th99 Store.init) ≠
      ThResp.fromStore (docOfThresholds th99) := by
  refine ⟨by decide, by decide, rfl, ?_⟩
  intro h
  exact absurd ((by decide : get_thresholds none (set_thresholds th99 Store.init) =
    ThResp.defaults none) ▸ h) (by intro hh; cases hh)

/-! ### Threshold lookup (per-device scope) -/

/-- C6: a `get_thresholds` call with a non-empty `device_id` queries the
per-device scope only: it returns the first stored record whose
`device_id` field equals that string, or schema defaults annotated with
that `device_id` when none exists; any record it returns carries that
`device_id`, so it is never the global record (whose `device_id` field is
absent or `null`). -/
theorem C6_per_device_scope_only (s : Store) (did : String) (h : did ≠ "") :
    get_thresholds (some did) s =
      (match s.thresholds.find? (fun d => d.device_id == some (some did)) with
        | some doc => ThResp.fromStore doc
        | none => ThResp.defaults (some did))
    ∧ (∀ doc, get_thresholds (some did) s = ThResp.fromStore doc →
        doc.device_id = some (some did)) := by
  have hsc : scopeOf (some did) = ThScope.eqId did := by simp [scopeOf, h]
  constructor
  · rw [get_thresholds, hsc]
    rfl
  · intro doc hdoc
    rw [get_thresholds, hsc] at hdoc
    cases hf : s.thresholds.find? (thMatch (ThScope.eqId did)) with
    | none => rw [hf] at hdoc; exact absurd hdoc (by simp)
    | some d0 =>
      rw [hf] at hdoc
      simp only [ThResp.fromStore.injEq] at hdoc
      subst hdoc
      have hp := List.find?_some hf
      simpa [thMatch] using hp

/-- A per-device thresholds write for device "X". -/
def thX : Thresholds := { device_id := some "X" }

/-- A store holding both a per-device "X" record and a global write. -/
def storeThXG : Store := set_thresholds thGlobal (set_thresholds thX Store.init)

theorem C6_per_device_scope_only_witness :
    ("X" : String) ≠ "" ∧
    (∀ doc, get_thresholds (some "X") storeThXG = ThResp.fromStore doc →
      doc.device_id = some (some "X")) :=
  ⟨by decide, (C6_per_device_scope_only storeThXG "X" (by decide)).2⟩

/-! ### AQI derivation -/

/-- The spec's clamp is monotone. -/
theorem specClamp_mono {a b : ℚ} (h : a ≤ b) : specClamp a ≤ specClamp b :=
  min_le_min (max_le_max h le_rfl) le_rfl

/-- Clamping each argument and taking the max equals clamping the max:
the code's `max(min(max(x,0),500), min(max(y,0),500))` is the spec's
`clamp(max(x,y), 0, 500)`. -/
theorem specClamp_max (a b : ℚ) :
    max (specClamp a) (specClamp b) = specClamp (max a b) := by
  rcases le_total a b with h | h
  · rw [max_eq_right h, max_eq_right (specClamp_mono h)]
  · rw [max_eq_left h, max_eq_left (specClamp_mono h)]

theorem compute_aqi_eq_clamp (p q : ℚ) :
    compute_aqi (some p) (some q) = some (pyInt (specClamp (max (p * 5) (q * 2)))) := by
  show some (pyInt (max (specClamp (p * 5)) (specClamp (q * 2)))) = _
  rw [specClamp_max]

/-- A minimal valid reading exercising the clamp (`pm2_5*5 = 1000`). -/
def readingHigh : SensorReading :=
  { device_id := "d1", pm2_5 := 200, pm10 := 0, co2 := none, tvoc := none
    temperature := none, humidity := none, aqi := none, timestamp := none }

/-- C7: when `aqi` is absent from an ingested reading, the stored value is
`clamp(max(pm2_5*5, pm10*2), 0, 500)` (truncated to int, which is the
floor on these nonnegative values); `compute_aqi` is `None` exactly when
both inputs are `None`; and the spec's two examples hold: pm2_5=10/pm10=5
stores 50, pm2_5=200/pm10=0 stores 500 (clamped from 1000). -/
theorem C7_aqi_derivation (p q x : ℚ) (po qo : Option ℚ) (r : SensorReading) (s : Store) :
    compute_aqi (some p) (some q) = some (pyInt (specClamp (max (p * 5) (q * 2))))
    ∧ (0 ≤ x → pyInt x = ⌊x⌋)
    ∧ (compute_aqi po qo = none ↔ po = none ∧ qo = none)
    ∧ (ingest_reading r s).sensorreading = s.sensorreading ++ [mkReadingDoc r s.clock]
    ∧ (r.aqi = none → (mkReadingDoc r s.clock).aqi =
        some (pyInt (specClamp (max (r.pm2_5 * 5) (r.pm10 * 2)))))
    ∧ (compute_aqi (some 10) (some 5) = some 50 ∧ compute_aqi (some 200) (some 0) = some 500)
    ∧ ((mkReadingDoc readingEx 0).aqi = some 50 ∧ (mkReadingDoc readingHigh 0).aqi = some 500) := by
  refine ⟨compute_aqi_eq_clamp p q, fun hx => ?_, ?_, rfl, fun hr => ?_, ⟨?_, ?_⟩, ⟨?_, ?_⟩⟩
  · rw [pyInt, Rat.floor_def]
    exact Int.tdiv_eq_ediv (Rat.num_nonneg.mpr hx) (by positivity)
  · rcases po with _ | a <;> rcases qo with _ | b <;> simp [compute_aqi]
  · show (match r.aqi with
      | some a => some a
      | none => compute_aqi (some r.pm2_5) (some r.pm10)) =
      some (pyInt (specClamp (max (r.pm2_5 * 5) (r.pm10 * 2))))
    rw [hr, compute_aqi_eq_clamp]
  · norm_num [compute_aqi, pyInt]
  · norm_num [compute_aqi, pyInt]
  · show compute_aqi (some 10) (some 5) = some 50
    norm_num [compute_aqi, pyInt]
  · show compute_aqi (some 200) (some 0) = some 500
    norm_num [compute_aqi, pyInt]

theorem C7_aqi_derivation_witness :
    (0 : ℚ) ≤ 5 ∧ readingEx.aqi = none ∧
    pyInt 5 = ⌊(5 : ℚ)⌋ ∧
    (mkReadingDoc readingEx Store.init.clock).aqi =
      some (pyInt (specClamp (max (readingEx.pm2_5 * 5) (readingEx.pm10 * 2)))) :=
  ⟨by decide, by decide,
   (C7_aqi_derivation 10 5 5 none none readingEx Store.init).2.1 (by decide),
   (C7_aqi_derivation 10 5 5 none none readingEx Store.init).2.2.2.2.1 (by decide)⟩

/-! ### Enqueue validation and sparse storage -/

/-- C8 (amended): enqueue validation requires `device_id` to be *present*
(a missing `device_id` is a validation error), but the empty string is a
valid `str` and is accepted; optional fields not provided are omitted from
the stored document (`exclude_none=True`) — never stored as `null`. -/
theorem C8_enqueue_validation (cin : CommandIn) (cmd : DeviceCommand) (s : Store) :
    (cin.device_id = none → parseDeviceCommand cin = Except.error "field required: device_id")
    ∧ (parseDeviceCommand cin = Except.ok cmd → cin.device_id = some cmd.device_id)
    ∧ (cmd.power = none → (mkCmdDoc cmd s.nextId s.clock).power = none)
    ∧ (cmd.mode = none → (mkCmdDoc cmd s.nextId s.clock).mode = none)
    ∧ (cmd.fan_speed = none → (mkCmdDoc cmd s.nextId s.clock).fan_speed = none)
    ∧ ((mkCmdDoc cmd s.nextId s.clock).power ≠ some none
        ∧ (mkCmdDoc cmd s.nextId s.clock).mode ≠ some none
        ∧ (mkCmdDoc cmd s.nextId s.clock).fan_speed ≠ some none)
    ∧ (push_command cmd s).devicecommand = s.devicecommand ++ [mkCmdDoc cmd s.nextId s.clock] := by
  refine ⟨fun h => by simp [parseDeviceCommand, h], fun hok => ?_,
    fun h => by simp [mkCmdDoc, h], fun h => by simp [mkCmdDoc, h],
    fun h => by simp [mkCmdDoc, h], ⟨?_, ?_, ?_⟩, rfl⟩
  · obtain ⟨cdid, cp, cm, cf⟩ := cin
    rcases cdid with _ | did
    · simp [parseDeviceCommand] at hok
    · rcases cf with _ | v
      · simp only [parseDeviceCommand, Except.ok.injEq] at hok
        subst hok
        rfl
      · simp only [parseDeviceCommand] at hok
        by_cases hr : 0 ≤ v ∧ v ≤ 5
        · rw [if_pos hr] at hok
          simp only [Except.ok.injEq] at hok
          subst hok
          rfl
        · rw [if_neg hr] at hok
          exact absurd hok (by simp)
  · cases hp : cmd.power <;> simp [mkCmdDoc, hp]
  · cases hm : cmd.mode <;> simp [mkCmdDoc, hm]
  · cases hf : cmd.fan_speed <;> simp [mkCmdDoc, hf]

/-- The wire body `{"device_id": ""}` plus one set field. -/
def emptyIdIn : CommandIn :=
  { device_id := some "", power := some true, mode := none, fan_speed := none }

/-- The validated command with the empty-string `device_id`. -/
def emptyIdCmd : DeviceCommand :=
  { device_id := "", power := some true, mode := none, fan_speed := none }

/-- C8 counterexample: a command whose `device_id` is the empty string
passes validation (`device_id: str` has no non-empty constraint) and is
stored — the claimed rejection of empty `device_id` does not happen. -/
theorem C8_empty_device_id_accepted :
    parseDeviceCommand emptyIdIn = Except.ok emptyIdCmd ∧
    (push_command emptyIdCmd Store.init).devicecommand = [mkCmdDoc emptyIdCmd 0 0] :=
  ⟨rfl, by decide⟩

/-- A wire body with no `device_id` at all. -/
def noIdIn : CommandIn :=
  { device_id := none, power := none, mode := none, fan_speed := none }

/-- A wire body for device "d9" with no optional fields. -/
def bareIn : CommandIn :=
  { device_id := some "d9", power := none, mode := none, fan_speed := none }

/-- The validated command parsed from `bareIn`. -/
def cmdBare : DeviceCommand :=
  { device_id := "d9", power := none, mode := none, fan_speed := none }

theorem C8_enqueue_validation_witness :
    noIdIn.device_id = none ∧
    parseDeviceCommand noIdIn = Except.error "field required: device_id" ∧
    parseDeviceCommand bareIn = Except.ok cmdBare ∧
    bareIn.device_id = some cmdBare.device_id ∧
    (mkCmdDoc cmdBare Store.init.nextId Store.init.clock).power = none ∧
    (mkCmdDoc cmdBare Store.init.nextId Store.init.clock).mode = none ∧
    (mkCmdDoc cmdBare Store.init.nextId Store.init.clock).fan_speed = none :=
  ⟨by decide,
   (C8_enqueue_validation noIdIn cmdBare Store.init).1 (by decide),
   rfl,
   (C8_enqueue_validation bareIn cmdBare Store.init).2.1 rfl,
   (C8_enqueue_validation bareIn cmdBare Store.init).2.2.1 (by decide),
   (C8_enqueue_validation bareIn cmdBare Store.init).2.2.2.1 (by decide),
   (C8_enqueue_validation bareIn cmdBare Store.init).2.2.2.2.1 (by decide)⟩

/-! ### Empty-string query parameters -/

/-- C9: an empty-string `device_id` query parameter is treated as absent:
`get_latest_readings` applies no device filter (identical result to the
no-parameter call), and the thresholds lookup uses the global
(`$exists: False`) scope, not a per-device scope, so it finds exactly what
the no-parameter call finds. -/
theorem C9_empty_string_query (s : Store) (lim : Nat) :
    get_latest_readings (some "") lim s = get_latest_readings none lim s
    ∧ scopeOf (some "") = ThScope.notExists
    ∧ s.thresholds.find? (thMatch (scopeOf (some ""))) =
        s.thresholds.find? (thMatch (scopeOf none)) := by
  have hq : latestQueryFilter (some "") = latestQueryFilter none := by
    funext r
    simp [latestQueryFilter]
  exact ⟨by rw [get_latest_readings, get_latest_readings, hq], rfl, rfl⟩
